import Mathlib

/-
  Verification of the plan-execute-verify-repair orchestration graph of the
  ai-travel-advisor backend (`app/services/agent.py`, `app/schemas/agent.py`,
  `app/schemas/tools.py`), as a shallow embedding in Lean 4.

  Modelling conventions:
  * Python `datetime.date` values are day counts (`Int`); subtracting two
    dates yields the number of days, as `(end - start).days` does.
  * Monetary amounts (`float` in the source) are integers: every operation
    the orchestration core performs on them is a sum, a multiplication by a
    day count, or a comparison, so the embedding is parametric in the
    numeric type and integers cover all claims (whose instances are whole
    dollar amounts); no floating-point rounding is involved anywhere.
  * `datetime.fromisoformat(...).time()` applied to a flight time string is
    modelled by storing the parsed local time (hour/minute) directly.
  * LangGraph channel semantics from `AgentState` (schemas/agent.py):
    `messages` carries the `add_messages` reducer (new messages are appended,
    re-returned messages merge in place by id), and `plan`, `violations`,
    `decisions` carry the `operator.add` reducer, so a node's returned value
    for those keys is CONCATENATED onto the channel, never overwriting it.
    Nodes that `return state` therefore re-add those lists.
  * LLM-backed nodes (constraint extraction, planning, repair, synthesis)
    and tool execution are external capabilities; they are parameters of the
    transition function (`LLMOracle`), as the spec treats them (§4.4).
-/

namespace TravelAgent

/-- Python `datetime.date`, as an absolute day count. -/
abbrev Date := Int

/-- Date range constraint (`Dates` in schemas/agent.py); `end_` is the source
field `end`, renamed because `end` is a Lean keyword. -/
structure Dates where
  start : Date
  end_ : Date
deriving DecidableEq

/-- User constraints (`Constraints` in schemas/agent.py). `preferences` is a
Python `dict[str, bool] | None` with default `{}`, modelled as an optional
association list; the pydantic defaults are reproduced as field defaults. -/
structure Constraints where
  budget_usd : Option Int := none
  dates : Option Dates := none
  airports : List (Option String) := []
  preferences : Option (List (String × Bool)) := some []
deriving DecidableEq

/-- A plan step (`Plan` in schemas/agent.py). `args` is an opaque argument
map rendered as an association list. -/
structure Plan where
  id : String
  tool : String
  args : List (String × String) := []
  depends_on : List String := []
  cost_estimate : Int := 0
  time_estimate : Int := 0
deriving DecidableEq

/-- A constraint violation (`Violation` in schemas/agent.py). -/
structure Violation where
  reason : String
  conflicting_steps : List String := []
deriving DecidableEq

/-- An itinerary item (`ItineraryItem` in schemas/agent.py). -/
structure ItineraryItem where
  start : Option String := some ""
  end_ : Option String := some ""
  title : String
  location : Option String := some ""
  notes : Option String := some ""
deriving DecidableEq

/-- A day of the structured itinerary (`ItineraryDay` in schemas/agent.py). -/
structure ItineraryDay where
  date : String
  items : List ItineraryItem
deriving DecidableEq

/-- The structured itinerary (`StructuredItinerary` in schemas/agent.py). -/
structure StructuredItinerary where
  days : List ItineraryDay
  total_cost_usd : Int := 0
deriving DecidableEq

/-- Output of the synthesizer LLM call (`SynthesisResult` in schemas/agent.py). -/
structure SynthesisResult where
  answer_markdown : String
  itinerary : StructuredItinerary
  decisions : List String := []
deriving DecidableEq

/-- A local wall-clock time, the result of
`datetime.fromisoformat(s).time()` on a reported flight time. -/
structure LocalTime where
  hour : Nat
  minute : Nat
deriving DecidableEq

/-- A flight result (`FlightOption` in schemas/tools.py); `departure_time`
and `arrival_time` hold the parsed local times (see header note). -/
structure FlightOption where
  airline : String
  flight_number : String
  departure_time : LocalTime
  arrival_time : LocalTime
  price : Int
  co2_emissions_kg : Int := 0
deriving DecidableEq

/-- Flights tool output (`FlightSearchOutput` in schemas/tools.py). -/
structure FlightSearchOutput where
  flights : List FlightOption
deriving DecidableEq

/-- A lodging result (`LodgingOption` in schemas/tools.py); the
`distance_to_pois` map is omitted (unused by the orchestration core). -/
structure LodgingOption where
  name : String
  price_per_night : Int
  cancellation_policy : String := ""
deriving DecidableEq

/-- Lodging tool output (`LodgingSearchOutput` in schemas/tools.py). -/
structure LodgingSearchOutput where
  lodging_options : List LodgingOption
deriving DecidableEq

/-- One forecast day (`DailyWeather` in schemas/tools.py). -/
structure DailyWeather where
  forecast_date : Date
  max_temp : Int := 0
  min_temp : Int := 0
  weather_code : Int
deriving DecidableEq

/-- Weather tool output (`WeatherOutput` in schemas/tools.py). -/
structure WeatherOutput where
  daily : List DailyWeather
deriving DecidableEq

/-- An event result (`EventOption` in schemas/tools.py). Note: events carry
NO date field; `is_indoor` defaults to false. -/
structure EventOption where
  name : String
  opening_hours : String := ""
  kid_friendly : Bool
  is_indoor : Bool := false
deriving DecidableEq

/-- Events tool output (`EventSearchOutput` in schemas/tools.py). -/
structure EventSearchOutput where
  events : List EventOption
deriving DecidableEq

/-- The `parsed_tool_outputs` dictionary built by `verifier_critic_node`:
tool messages grouped by tool name, each list in message order. A key is
present in the Python dict iff at least one message parsed for that name, so
a missing key corresponds exactly to the empty list. -/
structure ParsedToolOutputs where
  flights : List FlightSearchOutput := []
  lodging : List LodgingSearchOutput := []
  events : List EventSearchOutput := []
  weather : List WeatherOutput := []
deriving DecidableEq

/-- Budget-rule violation text, from `verifier_critic_node` (the f-string
interpolating the computed total and the configured ceiling). -/
def budgetViolation (total : Int) (budget : Int) : Violation :=
  { reason := "Budget exceeded: Total cost $" ++ toString total ++
      " is over the budget of $" ++ toString budget }

/-- Total cost accumulated by the budget check of `verifier_critic_node`:
all flight prices, plus each lodging nightly rate times
`(constraints.dates.end - constraints.dates.start).days`; the lodging part
runs only when lodging outputs were parsed AND a date range is present. -/
def totalCost (c : Constraints) (p : ParsedToolOutputs) : Int :=
  (if p.flights.isEmpty then 0
   else ((p.flights.map (fun o => (o.flights.map FlightOption.price).sum)).sum))
  + (if p.lodging.isEmpty then 0
     else match c.dates with
       | some d =>
           (p.lodging.map (fun o =>
             (o.lodging_options.map (fun l =>
               l.price_per_night * (d.end_ - d.start))).sum)).sum
       | none => 0)

/-- Rule 1 (budget) of `verifier_critic_node`. The guard is the Python
truthiness test `if constraints and constraints.budget_usd:`, which skips the
check when `constraints` is None, `budget_usd` is None, OR `budget_usd == 0`. -/
def budgetViolations (c : Option Constraints) (p : ParsedToolOutputs) : List Violation :=
  match c with
  | none => []
  | some c =>
      match c.budget_usd with
      | none => []
      | some b =>
          if b = 0 then []
          else if b < totalCost c p then [budgetViolation (totalCost c p) b]
          else []

/-- Overnight-rule violation text for one flight (the source wraps the
flight number in parentheses inside the reason string). -/
def overnightViolation (f : FlightOption) : Violation :=
  { reason := "Constraint violation: Plan includes an overnight flight (" ++
      f.flight_number ++ ") against user preference." }

/-- The overnight test of rule 2: departure hour strictly after 22 or
arrival hour strictly before 6. -/
def isOvernightFlight (f : FlightOption) : Bool :=
  decide (22 < f.departure_time.hour) || decide (f.arrival_time.hour < 6)

/-- All flight options across the parsed flights outputs, in recorded order. -/
def allFlights (p : ParsedToolOutputs) : List FlightOption :=
  (p.flights.map FlightSearchOutput.flights).flatten

/-- Rule 2 (no-overnight-flights preference) of `verifier_critic_node`. The
guard is `constraints and constraints.preferences and
constraints.preferences.get("no_overnight_flights")`: an absent or empty
preferences dict, or an absent or false value, skips the rule. -/
def overnightViolations (c : Option Constraints) (p : ParsedToolOutputs) : List Violation :=
  match c with
  | none => []
  | some c =>
      match c.preferences with
      | none => []
      | some prefs =>
          if prefs.isEmpty then []
          else if prefs.lookup "no_overnight_flights" = some true then
            ((allFlights p).filter isOvernightFlight).map overnightViolation
          else []

/-- The fixed set of WMO precipitation codes of rule 3. -/
def rainyCodes : List Int := [51, 53, 55, 61, 63, 65, 80, 81, 82]

/-- The `rainy_days` set of rule 3: forecast dates whose weather code is a
precipitation code (as a list; only membership and emptiness are used). -/
def rainyDays (p : ParsedToolOutputs) : List Date :=
  (((p.weather.map WeatherOutput.daily).flatten).filter
    (fun f => decide (f.weather_code ∈ rainyCodes))).map DailyWeather.forecast_date

/-- Weather-rule violation text for one event (the source puts the event
name in single quotes, which are elided here). -/
def weatherViolation (e : EventOption) : Violation :=
  { reason := "Weather sensitivity: Event " ++ e.name ++
      " is on a rainy day. Consider an indoor alternative." }

/-- All event options across the parsed events outputs, in recorded order. -/
def allEvents (p : ParsedToolOutputs) : List EventOption :=
  (p.events.map EventSearchOutput.events).flatten

/-- Rule 3 (weather sensitivity) of `verifier_critic_node`: when
`rainy_days` is nonempty and events were parsed, EVERY non-indoor event is
flagged — the event records carry no date, so no per-date match happens. -/
def weatherViolations (p : ParsedToolOutputs) : List Violation :=
  if !(rainyDays p).isEmpty && !p.events.isEmpty then
    ((allEvents p).filter (fun e => !e.is_indoor)).map weatherViolation
  else []

/-- Kid-friendly-rule violation text for one event (quotes around the name
elided as in `weatherViolation`). -/
def kidViolation (e : EventOption) : Violation :=
  { reason := "Preference violation: Event " ++ e.name ++
      " is not kid-friendly, but this was a user preference." }

/-- Rule 4 (preference fit) of `verifier_critic_node`: guarded by a truthy
preferences dict; runs when `preferences.get("kid_friendly")` is not None and
events were parsed; flags non-kid-friendly events only when the preference
value is true. -/
def kidViolations (c : Option Constraints) (p : ParsedToolOutputs) : List Violation :=
  match c with
  | none => []
  | some c =>
      match c.preferences with
      | none => []
      | some prefs =>
          if prefs.isEmpty then []
          else
            match prefs.lookup "kid_friendly" with
            | none => []
            | some kf =>
                if !p.events.isEmpty && kf then
                  ((allEvents p).filter (fun e => !e.kid_friendly)).map kidViolation
                else []

/-- The fresh violation list computed by one `verifier_critic_node` pass
(the node sets its local `state["violations"] = []` and then appends in rule
order 1 → 4). -/
def verifierViolations (c : Option Constraints) (p : ParsedToolOutputs) : List Violation :=
  budgetViolations c p ++ overnightViolations c p ++ weatherViolations p ++ kidViolations c p

/-- The payload of a `ToolMessage`, as `verifier_critic_node` parses it by
the message's tool name against `model_map`; `other` covers the tools the
verifier ignores (transit, currency, geocoding, knowledge retrieval) and
content that fails pydantic validation (logged and skipped). -/
inductive ToolPayload
  | flights (o : FlightSearchOutput)
  | lodging (o : LodgingSearchOutput)
  | events (o : EventSearchOutput)
  | weather (o : WeatherOutput)
  | other
deriving DecidableEq

/-- A tool call requested by the router (`langchain ToolCall`): tool name,
arguments and the plan-step id used as the `tool_call_id`. -/
structure ToolCallReq where
  name : String
  args : List (String × String)
  id : String
deriving DecidableEq

/-- The `status` field of a LangChain `ToolMessage`: `ToolNode` (used with
its default `handle_tool_errors=True`, agent.py:495) records a FAILED tool
execution as a ToolMessage with status "error" whose content is the error
text, still carrying the step's `tool_call_id`. -/
inductive ToolStatus
  | success
  | error
deriving DecidableEq

/-- A LangChain message as the orchestrator uses it: system/human content,
AI messages with their `tool_calls`, and tool messages with tool name,
parsed payload, `tool_call_id` and execution status. The orchestration code
never reads the status: the verifier only validates the content (an error
text fails model validation, hence payload `other`), and
`_get_completed_step_ids` counts every ToolMessage regardless of status. -/
inductive Msg
  | system (content : String)
  | human (content : String)
  | ai (content : String) (tool_calls : List ToolCallReq)
  | tool (name : String) (payload : ToolPayload) (tool_call_id : String) (status : ToolStatus)
deriving DecidableEq

/-- Grouping of the tool messages by name, exactly as the parse loop of
`verifier_critic_node` builds `parsed_tool_outputs` (a message contributes
iff its name is in `model_map` and its content validates as that model). -/
def collectParsed (msgs : List Msg) : ParsedToolOutputs :=
  { flights := msgs.filterMap (fun m => match m with
      | .tool "flights" (.flights o) _ _ => some o
      | _ => none)
  , lodging := msgs.filterMap (fun m => match m with
      | .tool "lodging" (.lodging o) _ _ => some o
      | _ => none)
  , events := msgs.filterMap (fun m => match m with
      | .tool "events" (.events o) _ _ => some o
      | _ => none)
  , weather := msgs.filterMap (fun m => match m with
      | .tool "weather" (.weather o) _ _ => some o
      | _ => none) }

/-- `AgentService._get_completed_step_ids`: the `tool_call_id` of every tool
message with a truthy (non-empty) id, used as a set — regardless of whether
the execution succeeded or was recorded as an error. -/
def completedStepIds (msgs : List Msg) : List String :=
  msgs.filterMap (fun m => match m with
    | .tool _ _ id _ => if id = "" then none else some id
    | _ => none)

/-- The step identifiers with a recorded SUCCESSFUL tool execution — the
"already-succeeded" set the spec's scheduler contract (§4.3) speaks of. The
source never computes this set: `_get_completed_step_ids` ignores the
ToolMessage status, which is what C4's counterexample exploits. -/
def succeededStepIds (msgs : List Msg) : List String :=
  msgs.filterMap (fun m => match m with
    | .tool _ _ id .success => if id = "" then none else some id
    | _ => none)

/-- The runnable-step filter of `AgentService.router_node`: keep a plan step
iff its id has no completed record and its `depends_on` is empty or a subset
of the completed ids. -/
def runnableSteps (plan : List Plan) (completed : List String) : List Plan :=
  plan.filter (fun step =>
    decide (step.id ∉ completed) &&
    (step.depends_on.isEmpty || step.depends_on.all (fun d => decide (d ∈ completed))))

/-- `langgraph.prebuilt.tools_condition`: true iff the last message is an AI
message carrying at least one tool call. -/
def hasToolCallsPending (msgs : List Msg) : Bool :=
  match msgs.getLast? with
  | some (.ai _ tcs) => !tcs.isEmpty
  | _ => false

/-- The orchestration state restricted to the channels the claims touch
(`AgentState` in schemas/agent.py; `working_set`, `citations`, `tool_calls`
and `budget_counters` are omitted — no claim reads them). -/
structure AgentState where
  messages : List Msg
  constraints : Option Constraints
  plan : List Plan
  violations : List Violation
  answer_markdown : Option String
  itinerary : Option StructuredItinerary
  decisions : List String
  done : Bool
  is_refinement : Bool
deriving DecidableEq

/-- The nodes of the compiled graph (`add_nodes_and_edges`), plus the
virtual `start` router and the `terminal` END state. -/
inductive Node
  | start
  | refinement
  | constraint_extraction
  | plan
  | router
  | tool_executor
  | verifier
  | repair
  | synthesizer
  | responder
  | terminal
deriving DecidableEq

/-- The external LLM and tool capabilities the graph calls out to, as
functions of the state they are invoked on (spec §4.4: opaque capabilities
with a structured-output contract). -/
structure LLMOracle where
  extractConstraints : AgentState → Constraints
  refineConstraints : AgentState → Constraints
  genPlan : AgentState → List Plan
  genRepairPlan : AgentState → List Plan
  synthesize : AgentState → SynthesisResult
  runTool : ToolCallReq → ToolPayload × ToolStatus

/-- The synthetic violation seeded by `refinement_node`. -/
def refinementViolation : Violation :=
  { reason := "User requested a refinement. Re-evaluating plan." }

/-- Effect of a node that executes `return state`: through the channel
reducers, `messages` merges in place (no change) while the `operator.add`
channels `plan`, `violations` and `decisions` are re-added onto themselves. -/
def reAddState (s : AgentState) : AgentState :=
  { s with plan := s.plan ++ s.plan
         , violations := s.violations ++ s.violations
         , decisions := s.decisions ++ s.decisions }

/-- `AgentService.refinement_node`: when `is_refinement` is falsy it returns
the state unchanged (re-adding the additive channels); otherwise it stores
the refined constraints and returns `violations = [refinementViolation]`,
which the `add` reducer appends to the channel. It adds no messages to the
state (the refinement prompt is local to the LLM call). -/
def applyRefinement (o : LLMOracle) (s : AgentState) : AgentState :=
  if !s.is_refinement then reAddState s
  else
    { s with constraints := some (o.refineConstraints s)
           , violations := s.violations ++ [refinementViolation]
           , plan := s.plan ++ s.plan
           , decisions := s.decisions ++ s.decisions }

/-- `AgentService.constraint_extraction_node`: stores the extracted
constraints and returns the full state (re-adding additive channels). -/
def applyConstraintExtraction (o : LLMOracle) (s : AgentState) : AgentState :=
  { reAddState s with constraints := some (o.extractConstraints s) }

/-- `AgentService.plan_node`: sets the returned `plan` to the generated
steps (appended by the `add` reducer) and returns two new messages (the
planning prompt and an AI summary), appended by `add_messages`. -/
def applyPlan (o : LLMOracle) (s : AgentState) : AgentState :=
  let plans := o.genPlan s
  { s with plan := s.plan ++ plans
         , messages := s.messages ++
             [.human "PLAN_PROMPT"
             , .ai ("Generated plan with " ++ toString plans.length ++ " steps") []]
         , violations := s.violations ++ s.violations
         , decisions := s.decisions ++ s.decisions }

/-- `AgentService.router_node`: when no step is runnable it returns the
state unchanged (re-adding additive channels, emitting no tool calls);
otherwise it returns ONLY a messages update holding one AI message whose
tool calls are the runnable steps in plan order. -/
def applyRouter (s : AgentState) : AgentState :=
  let runnable := runnableSteps s.plan (completedStepIds s.messages)
  if runnable.isEmpty then reAddState s
  else
    { s with messages := s.messages ++
        [.ai "" (runnable.map (fun st => ⟨st.tool, st.args, st.id⟩))] }

/-- `langgraph.prebuilt.ToolNode`: executes each tool call of the last AI
message and returns one `ToolMessage` per call (tool name, output payload or
handled-error text, `tool_call_id` = the call id, success/error status),
appended by `add_messages`. Unreachable with no pending calls (the
`tools_condition` edge guards it). -/
def applyTools (o : LLMOracle) (s : AgentState) : AgentState :=
  match s.messages.getLast? with
  | some (.ai _ tcs) =>
      { s with messages := s.messages ++
          tcs.map (fun tc => .tool tc.name (o.runTool tc).1 tc.id (o.runTool tc).2) }
  | _ => s

/-- `AgentService.verifier_critic_node`: recomputes the rule violations from
the parsed tool messages and returns the full state; through the `add`
reducer the fresh list is APPENDED to the violations channel (and the other
additive channels are re-added). -/
def applyVerifier (s : AgentState) : AgentState :=
  { s with violations := s.violations ++
             verifierViolations s.constraints (collectParsed s.messages)
         , plan := s.plan ++ s.plan
         , decisions := s.decisions ++ s.decisions }

/-- `AgentService.repair_node`: returns `violations = []` (through the `add`
reducer this leaves the channel unchanged), appends the repaired plan steps,
and returns the filtered message history plus the repair prompt and an AI
summary — by `add_messages` id-merging, the net message effect is appending
those two (prior tool messages are retained in the channel). -/
def applyRepair (o : LLMOracle) (s : AgentState) : AgentState :=
  let plans := o.genRepairPlan s
  { s with violations := s.violations ++ []
         , plan := s.plan ++ plans
         , messages := s.messages ++
             [.human "REPAIR_PROMPT"
             , .ai ("Repaired plan with " ++ toString plans.length ++ " steps") []]
         , decisions := s.decisions ++ s.decisions }

/-- `AgentService.synthesizer_node`: overwrites `answer_markdown` and
`itinerary`, returns `decisions` from the synthesis (appended by the `add`
reducer), and returns the full state otherwise (re-adding `plan` and
`violations`); it adds no messages. -/
def applySynthesizer (o : LLMOracle) (s : AgentState) : AgentState :=
  let r := o.synthesize s
  { s with answer_markdown := some r.answer_markdown
         , itinerary := some r.itinerary
         , decisions := s.decisions ++ r.decisions
         , plan := s.plan ++ s.plan
         , violations := s.violations ++ s.violations }

/-- `AgentService.responder_node`: returns ONLY a messages update with the
final AI message; in particular it does not touch `done`. -/
def applyResponder (s : AgentState) : AgentState :=
  { s with messages := s.messages ++
      [.ai (s.answer_markdown.getD "Here is your travel plan.") []] }

/-- One transition of the compiled graph: run the node, then follow its
(conditional) edge as wired in `add_nodes_and_edges`. `should_repair` and
`tools_condition` read the post-reducer state, and the START edge is
`is_refinement_check`. -/
def stepGraph (o : LLMOracle) : Node × AgentState → Node × AgentState
  | (.start, s) =>
      (if s.is_refinement then .refinement else .constraint_extraction, s)
  | (.refinement, s) => (.verifier, applyRefinement o s)
  | (.constraint_extraction, s) => (.plan, applyConstraintExtraction o s)
  | (.plan, s) => (.router, applyPlan o s)
  | (.router, s) =>
      let s' := applyRouter s
      (if hasToolCallsPending s'.messages then .tool_executor else .synthesizer, s')
  | (.tool_executor, s) => (.verifier, applyTools o s)
  | (.verifier, s) =>
      let s' := applyVerifier s
      (if s'.violations.isEmpty then .router else .repair, s')
  | (.repair, s) => (.router, applyRepair o s)
  | (.synthesizer, s) => (.responder, applySynthesizer o s)
  | (.responder, s) => (.terminal, applyResponder s)
  | (.terminal, s) => (.terminal, s)

/-- Iterated graph transitions. -/
def iterGraph (o : LLMOracle) : Nat → Node × AgentState → Node × AgentState
  | 0, c => c
  | n + 1, c => iterGraph o n (stepGraph o c)

/-- The initial channel values a fresh (non-refinement) turn seeds in
`plan_itinerary` (`input_data` for a new plan): system + user messages,
default `Constraints()`, and empty/None everything else. -/
def initialState (query : String) : AgentState :=
  { messages := [.system "SYSTEM_MESSAGE", .human query]
  , constraints := some {}
  , plan := []
  , violations := []
  , answer_markdown := none
  , itinerary := none
  , decisions := []
  , done := false
  , is_refinement := false }

/-- A trivial oracle instance used for concrete evaluations. -/
def trivOracle : LLMOracle :=
  { extractConstraints := fun _ => {}
  , refineConstraints := fun _ => {}
  , genPlan := fun _ => []
  , genRepairPlan := fun _ => []
  , synthesize := fun _ => ⟨"", ⟨[], 0⟩, []⟩
  , runTool := fun _ => (.other, .success) }

/-- A state in which step `a`'s tool execution FAILED — `ToolNode` recorded
an error ToolMessage (unparseable error text, status error, carrying the
`tool_call_id` "a") — and step `b` depends on `a`. -/
def failedDepState : AgentState :=
  { messages := [.system "SYSTEM_MESSAGE", .human "q"
      , .ai "" [⟨"flights", [], "a"⟩], .tool "flights" .other "a" .error]
  , constraints := some {}
  , plan := [{ id := "a", tool := "flights" }, { id := "b", tool := "lodging", depends_on := ["a"] }]
  , violations := []
  , answer_markdown := none
  , itinerary := none
  , decisions := []
  , done := false
  , is_refinement := false }

/-- Counterexample to C4 as stated: step `a` has only a FAILED tool-call
record, yet the router treats it as completed and dispatches step `b`,
whose `depends_on` set is therefore not a subset of the already-succeeded
step identifiers — `_get_completed_step_ids` counts every ToolMessage
regardless of status, so premature execution past a failed dependency
happens. -/
theorem C4_counterexample :
    ({ id := "b", tool := "lodging", depends_on := ["a"] } : Plan) ∈
      runnableSteps failedDepState.plan (completedStepIds failedDepState.messages) ∧
    "a" ∈ ({ id := "b", tool := "lodging", depends_on := ["a"] } : Plan).depends_on ∧
    "a" ∉ succeededStepIds failedDepState.messages ∧
    (stepGraph trivOracle (.router, failedDepState)).2.messages.getLast? =
      some (.ai "" [⟨"lodging", [], "b"⟩]) := by decide

/-- C4 (amended): the router dispatches a step iff the step has no RECORDED
tool-call message and every identifier in its `depends_on` has a RECORDED
tool-call message — where a record of any status counts, a failed execution
as much as a successful one (the code never inspects the ToolMessage
status). `router_node` dispatches exactly `runnableSteps`, one tool call per
step, in plan order. -/
theorem C4_router_dispatches_iff_recorded (s : AgentState) (step : Plan) :
    step ∈ runnableSteps s.plan (completedStepIds s.messages) ↔
      (step ∈ s.plan ∧ step.id ∉ completedStepIds s.messages ∧
        ∀ d ∈ step.depends_on, d ∈ completedStepIds s.messages) := by
  rw [runnableSteps, List.mem_filter]
  constructor
  · rintro ⟨hmem, hcond⟩
    rw [Bool.and_eq_true] at hcond
    obtain ⟨h1, h2⟩ := hcond
    refine ⟨hmem, of_decide_eq_true h1, ?_⟩
    rw [Bool.or_eq_true] at h2
    rcases h2 with he | ha
    · intro d hd
      rw [List.isEmpty_iff] at he
      rw [he] at hd
      cases hd
    · intro d hd
      exact of_decide_eq_true (List.all_eq_true.mp ha d hd)
  · rintro ⟨hmem, hid, hdeps⟩
    refine ⟨hmem, ?_⟩
    rw [Bool.and_eq_true]
    refine ⟨decide_eq_true hid, ?_⟩
    rw [Bool.or_eq_true]
    right
    rw [List.all_eq_true]
    intro d hd
    exact decide_eq_true (hdeps d hd)

/-- C7 (amended): for a NONZERO budget ceiling, the budget rule emits
exactly one violation citing the computed total and the ceiling iff the
total exceeds the ceiling. (A ceiling of exactly 0 is skipped by the Python
truthiness guard `if constraints.budget_usd:` — see `C7_counterexample`.) -/
theorem C7_budget_rule (c : Constraints) (p : ParsedToolOutputs) (b : Int)
    (hb : c.budget_usd = some b) (hnz : b ≠ 0) :
    budgetViolations (some c) p =
      if b < totalCost c p then [budgetViolation (totalCost c p) b] else [] := by
  simp [budgetViolations, hb, hnz]

/-- A constraint set whose budget ceiling is 0 (a specified ceiling). -/
def zeroBudgetConstraints : Constraints := { budget_usd := some 0 }

/-- One successful flights result priced 600, departing 10:00, arriving
12:00. -/
def flight600 : FlightOption :=
  { airline := "AA", flight_number := "AA100"
  , departure_time := ⟨10, 0⟩, arrival_time := ⟨12, 0⟩, price := 600 }

/-- Parsed tool outputs holding exactly that one flight result. -/
def oneFlight600 : ParsedToolOutputs := { flights := [⟨[flight600]⟩] }

/-- Counterexample to C7 as stated: the constraint set specifies a budget
ceiling (0), the flight sum 600 exceeds it, yet the verifier emits NO budget
violation, because Python truthiness treats `budget_usd == 0` as unset. -/
theorem C7_counterexample :
    zeroBudgetConstraints.budget_usd = some 0 ∧
    (0 : Int) < totalCost zeroBudgetConstraints oneFlight600 ∧
    budgetViolations (some zeroBudgetConstraints) oneFlight600 = [] ∧
    verifierViolations (some zeroBudgetConstraints) oneFlight600 = [] := by decide

/-- Spec Scenario A constraint set: `{budget_usd: 500}`. -/
def budget500Constraints : Constraints := { budget_usd := some 500 }

/-- Witness for C7 at Scenario A: budget 500, one flight priced 600 — the
verifier emits exactly one budget violation citing total 600 and ceiling
500, and nothing else. -/
theorem C7_budget_rule_witness :
    budget500Constraints.budget_usd = some 500 ∧ (500 : Int) ≠ 0 ∧
    budgetViolations (some budget500Constraints) oneFlight600 = [budgetViolation 600 500] ∧
    verifierViolations (some budget500Constraints) oneFlight600 = [budgetViolation 600 500] := by
  refine ⟨rfl, by decide, ?_, by decide⟩
  rw [C7_budget_rule budget500Constraints oneFlight600 500 rfl (by decide)]
  decide

/-- C8: with the "no overnight flights" preference set true, the verifier
flags exactly the flights whose departure hour is after 22 or whose arrival
hour is before 6 — one violation per such flight, in recorded order, naming
the flight (the reason embeds `flight_number`). -/
theorem C8_overnight_rule (c : Constraints) (p : ParsedToolOutputs)
    (prefs : List (String × Bool)) (hp : c.preferences = some prefs)
    (h : prefs.lookup "no_overnight_flights" = some true) :
    overnightViolations (some c) p =
      ((allFlights p).filter isOvernightFlight).map overnightViolation ∧
    ∀ f : FlightOption,
      isOvernightFlight f = true ↔ (22 < f.departure_time.hour ∨ f.arrival_time.hour < 6) := by
  constructor
  · have hne : prefs.isEmpty = false := by
      cases prefs with
      | nil => exact Option.noConfusion h
      | cons a l => rfl
    simp [overnightViolations, hp, hne, h]
  · intro f
    simp [isOvernightFlight]

/-- Spec Scenario B constraint set: preference `{no_overnight_flights: true}`. -/
def noOvernightConstraints : Constraints :=
  { preferences := some [("no_overnight_flights", true)] }

/-- A flight departing 23:10 (overnight by the departure-hour test). -/
def lateFlight : FlightOption :=
  { airline := "NH", flight_number := "NH222"
  , departure_time := ⟨23, 10⟩, arrival_time := ⟨7, 30⟩, price := 400 }

/-- Parsed tool outputs holding exactly that one late flight. -/
def oneLateFlight : ParsedToolOutputs := { flights := [⟨[lateFlight]⟩] }

/-- Witness for C8 at Scenario B: one flight departing 23:10 yields exactly
one overnight-flight violation naming that flight, and no other violation. -/
theorem C8_overnight_rule_witness :
    noOvernightConstraints.preferences = some [("no_overnight_flights", true)] ∧
    ([("no_overnight_flights", true)].lookup "no_overnight_flights" = some true) ∧
    overnightViolations (some noOvernightConstraints) oneLateFlight =
      [overnightViolation lateFlight] ∧
    verifierViolations (some noOvernightConstraints) oneLateFlight =
      [overnightViolation lateFlight] := by
  refine ⟨rfl, by decide, ?_, by decide⟩
  rw [(C8_overnight_rule noOvernightConstraints oneLateFlight
    [("no_overnight_flights", true)] rfl (by decide)).1]
  decide

/-- The flagging behaviour C9 claims, following the spec words: exactly the
non-indoor events scheduled on a precipitation date are flagged. Event
results carry no date, so the claimed per-date match is only expressible
relative to a schedule assigning each event its date. -/
def C9ClaimedFlagging (sched : EventOption → Date) (p : ParsedToolOutputs) : Prop :=
  ∀ e ∈ allEvents p,
    (weatherViolation e ∈ weatherViolations p ↔
      (e.is_indoor = false ∧ sched e ∈ rainyDays p))

/-- A weather output with one rainy forecast date (day 0, drizzle code 61). -/
def rainyDay0 : WeatherOutput := ⟨[{ forecast_date := 0, weather_code := 61 }]⟩

/-- A non-indoor event result (events carry no date field). -/
def picnicEvent : EventOption := { name := "Picnic", kid_friendly := true, is_indoor := false }

/-- Parsed tool outputs with the rainy forecast and the outdoor event. -/
def picnicOutputs : ParsedToolOutputs :=
  { events := [⟨[picnicEvent]⟩], weather := [rainyDay0] }

/-- Counterexample to C9 as stated: with one rainy date (day 0) and the
outdoor event scheduled on day 1 (NOT a precipitation date), the code still
flags the event — flagging ignores event dates entirely. -/
theorem C9_counterexample : ¬ C9ClaimedFlagging (fun _ => 1) picnicOutputs := by
  intro h
  have hmem : weatherViolation picnicEvent ∈ weatherViolations picnicOutputs := by decide
  have hin : picnicEvent ∈ allEvents picnicOutputs := by decide
  have := ((h picnicEvent hin).mp hmem).2
  revert this
  decide

/-- C9 (amended): whenever the precipitation-date set is nonempty, the
verifier flags EVERY non-indoor event result (one violation per event,
naming it), independently of any scheduling — event results carry no date;
when the set is empty, no weather violations are emitted. -/
theorem C9_weather_rule (p : ParsedToolOutputs) (h : rainyDays p ≠ []) :
    weatherViolations p =
      ((allEvents p).filter (fun e => !e.is_indoor)).map weatherViolation := by
  have hr : (rainyDays p).isEmpty = false := by
    cases hrd : rainyDays p with
    | nil => exact absurd hrd h
    | cons a l => rfl
  unfold weatherViolations
  rw [hr]
  cases he : p.events with
  | nil => simp [allEvents, he]
  | cons a l => simp [he]

/-- Witness for C9 (amended) at the concrete rainy-day input: the single
outdoor event is flagged. -/
theorem C9_weather_rule_witness :
    rainyDays picnicOutputs ≠ [] ∧
    weatherViolations picnicOutputs = [weatherViolation picnicEvent] := by
  refine ⟨by decide, ?_⟩
  rw [C9_weather_rule picnicOutputs (by decide)]
  decide

/-- A stale violation left over from an earlier verification pass. -/
def staleViolation : Violation :=
  { reason := "Budget exceeded: stale violation from a prior pass" }

/-- A session state entering `repair_node` with one stale violation, one
dispatched-and-recorded flight step, and the Scenario A budget. -/
def c1State : AgentState :=
  { messages := [.system "SYSTEM_MESSAGE", .human "q"
      , .ai "" [⟨"flights", [], "s1"⟩]
      , .tool "flights" (.flights ⟨[flight600]⟩) "s1" .success]
  , constraints := some budget500Constraints
  , plan := [{ id := "s1", tool := "flights" }]
  , violations := [staleViolation]
  , answer_markdown := none
  , itinerary := none
  , decisions := []
  , done := false
  , is_refinement := false }

/-- C1 evaluated at the failing input: `repair_node` returns
`violations = []`, but the `operator.add` reducer on the violations channel
turns that into `old ++ [] = old`, so repair does NOT clear the list; the
following `verifier_critic_node` pass computes the fresh list and the
reducer APPENDS it to the stale one — the channel is the union with the
prior list, not a replacement (the code's own comment says "Reset
violations", contradicted by the reducer in `AgentState`). -/
theorem C1_repair_does_not_clear :
    (stepGraph trivOracle (.repair, c1State)).2.violations = [staleViolation] ∧
    verifierViolations c1State.constraints (collectParsed c1State.messages) =
      [budgetViolation 600 500] ∧
    (stepGraph trivOracle (.verifier, c1State)).2.violations =
      [staleViolation, budgetViolation 600 500] := by decide

/-- An oracle driving the repair loop: constraint extraction yields budget
500, every planned or repaired step is a flights search returning one
flight priced 600 (so every verification pass finds the budget exceeded),
and each repair proposes one fresh step (ids derived from the growing
message count, as a fresh LLM plan would). -/
def repairLoopOracle : LLMOracle :=
  { extractConstraints := fun _ => { budget_usd := some 500 }
  , refineConstraints := fun _ => {}
  , genPlan := fun _ => [{ id := "s1", tool := "flights" }]
  , genRepairPlan := fun s => [{ id := "r" ++ toString s.messages.length, tool := "flights" }]
  , synthesize := fun _ => ⟨"", ⟨[], 0⟩, []⟩
  , runTool := fun _ => (.flights ⟨[flight600]⟩, .success) }

/-- C2 evaluated at the failing input: within a single turn the graph visits
`repair_node` at least four times (transitions 6, 10, 14 and 18 from the
fresh initial state) — there is no repair-attempt counter and `should_repair`
routes to repair whenever violations is non-empty, so the claimed bound
(default 3) does not exist in the code. -/
theorem C2_repair_exceeds_three :
    ((iterGraph repairLoopOracle 6 (.start, initialState "trip")).1 = .repair) ∧
    ((iterGraph repairLoopOracle 10 (.start, initialState "trip")).1 = .repair) ∧
    ((iterGraph repairLoopOracle 14 (.start, initialState "trip")).1 = .repair) ∧
    ((iterGraph repairLoopOracle 18 (.start, initialState "trip")).1 = .repair) := by decide

/-- A state entering the router with a freshly generated one-step plan whose
only step depends on a nonexistent identifier (spec Scenario D). -/
def danglingPlanState : AgentState :=
  { messages := [.system "SYSTEM_MESSAGE", .human "q", .human "PLAN_PROMPT"
      , .ai "Generated plan with 1 steps" []]
  , constraints := some {}
  , plan := [{ id := "b", tool := "lodging", depends_on := ["missing"] }]
  , violations := []
  , answer_markdown := none
  , itinerary := none
  , decisions := []
  , done := false
  , is_refinement := false }

/-- Counterexample to C3 as stated: with a dangling dependency the router
finds zero runnable steps while an unsucceeded step remains, and the
orchestrator routes to `synthesizer`, NOT to `repair` (the router emits no
tool calls, so `tools_condition` takes the `__end__` edge). -/
theorem C3_counterexample :
    runnableSteps danglingPlanState.plan (completedStepIds danglingPlanState.messages) = [] ∧
    (∃ st ∈ danglingPlanState.plan, st.id ∉ completedStepIds danglingPlanState.messages) ∧
    (stepGraph trivOracle (.router, danglingPlanState)).1 = .synthesizer ∧
    Node.synthesizer ≠ Node.repair := by decide

/-- C3 (amended): whenever the router finds zero runnable steps — including
when unsucceeded steps remain because of a dangling or cyclic dependency —
it emits no tool calls and the orchestrator routes to `synthesizer`
(a degraded response), never to `repair`. -/
theorem C3_zero_runnable_routes_to_synthesize (o : LLMOracle) (s : AgentState)
    (_hrem : ∃ st ∈ s.plan, st.id ∉ completedStepIds s.messages)
    (hrun : runnableSteps s.plan (completedStepIds s.messages) = [])
    (hlast : hasToolCallsPending s.messages = false) :
    (stepGraph o (.router, s)).1 = .synthesizer ∧
    (stepGraph o (.router, s)).2.messages = s.messages := by
  have hmsgs : (applyRouter s).messages = s.messages := by
    simp [applyRouter, reAddState, hrun]
  constructor
  · show (if hasToolCallsPending (applyRouter s).messages
        then Node.tool_executor else Node.synthesizer) = Node.synthesizer
    rw [hmsgs, hlast]
    rfl
  · exact hmsgs

/-- Witness for C3 (amended) at the Scenario D state. -/
theorem C3_zero_runnable_witness :
    (∃ st ∈ danglingPlanState.plan,
      st.id ∉ completedStepIds danglingPlanState.messages) ∧
    ((stepGraph trivOracle (.router, danglingPlanState)).1 = .synthesizer ∧
      (stepGraph trivOracle (.router, danglingPlanState)).2.messages =
        danglingPlanState.messages) :=
  ⟨by decide, C3_zero_runnable_routes_to_synthesize trivOracle danglingPlanState
    (by decide) (by decide) (by decide)⟩

/-- Helper: a single graph transition never changes the `done` flag — no
node of `add_nodes_and_edges` ever writes it. -/
theorem stepGraph_done (o : LLMOracle) (c : Node × AgentState) :
    ((stepGraph o c).2).done = c.2.done := by
  obtain ⟨n, s⟩ := c
  cases n with
  | start => rfl
  | refinement =>
      show (applyRefinement o s).done = s.done
      unfold applyRefinement reAddState
      split <;> rfl
  | constraint_extraction => rfl
  | plan => rfl
  | router =>
      show (applyRouter s).done = s.done
      cases h : (runnableSteps s.plan (completedStepIds s.messages)).isEmpty <;>
        simp [applyRouter, reAddState, h]
  | tool_executor =>
      show (applyTools o s).done = s.done
      unfold applyTools
      split <;> rfl
  | verifier => rfl
  | repair => rfl
  | synthesizer => rfl
  | responder => rfl
  | terminal => rfl

/-- Helper: iterated graph transitions preserve the `done` flag. -/
theorem iterGraph_done (o : LLMOracle) (n : Nat) (c : Node × AgentState) :
    ((iterGraph o n c).2).done = c.2.done := by
  induction n generalizing c with
  | zero => rfl
  | succ k ih =>
      show ((iterGraph o k (stepGraph o c)).2).done = c.2.done
      rw [ih (stepGraph o c), stepGraph_done]

/-- A completed-turn session state about to run `responder_node`. -/
def respondingState : AgentState :=
  { messages := [.system "SYSTEM_MESSAGE", .human "q"]
  , constraints := some {}
  , plan := []
  , violations := []
  , answer_markdown := some "Day 1: arrive."
  , itinerary := some ⟨[], 0⟩
  , decisions := []
  , done := false
  , is_refinement := false }

/-- Counterexample to C5 as stated: `responder_node` returns only the final
AI message — after it runs, `done` is still false, not true as the claim
says. -/
theorem C5_counterexample :
    (stepGraph trivOracle (.responder, respondingState)).1 = .terminal ∧
    (stepGraph trivOracle (.responder, respondingState)).2.done = false := by decide

/-- C5 (amended): no node of the graph ever sets `done`; from any turn
start with `done = false` (as `plan_itinerary` seeds it), every reachable
state keeps `done = false`, so the invariant that `done = true` implies a
non-null itinerary and empty violations holds vacuously. -/
theorem C5_done_never_set (o : LLMOracle) (s0 : AgentState) (n : Nat)
    (h0 : s0.done = false) :
    ((iterGraph o n (.start, s0)).2).done = false ∧
    (((iterGraph o n (.start, s0)).2).done = true →
      ((iterGraph o n (.start, s0)).2).itinerary ≠ none ∧
      ((iterGraph o n (.start, s0)).2).violations = []) := by
  have hd : ((iterGraph o n (.start, s0)).2).done = false := by
    rw [iterGraph_done]
    exact h0
  refine ⟨hd, fun ht => ?_⟩
  rw [hd] at ht
  cases ht

/-- Witness for C5 (amended) at a fresh turn after six transitions. -/
theorem C5_done_never_set_witness :
    (initialState "Plan a 3-day Tokyo trip").done = false ∧
    ((iterGraph trivOracle 6 (.start, initialState "Plan a 3-day Tokyo trip")).2).done = false :=
  ⟨rfl, (C5_done_never_set trivOracle (initialState "Plan a 3-day Tokyo trip") 6 rfl).1⟩

/-- C6: on a refinement turn (`is_refinement = true`), `refinement_node`
unconditionally seeds exactly one synthetic violation — the channel gains
exactly `refinementViolation`, whose reason states the user requested a
refinement — and the graph edge sends the turn straight to
`verifier_critic_node`, so at least one verification pass always runs even
if no new tool calls are made. -/
theorem C6_refinement_forces_verification (o : LLMOracle) (s : AgentState)
    (h : s.is_refinement = true) :
    (stepGraph o (.refinement, s)).1 = .verifier ∧
    (stepGraph o (.refinement, s)).2.violations = s.violations ++ [refinementViolation] ∧
    refinementViolation.reason = "User requested a refinement. Re-evaluating plan." := by
  refine ⟨rfl, ?_, rfl⟩
  show (applyRefinement o s).violations = s.violations ++ [refinementViolation]
  unfold applyRefinement
  rw [h]
  rfl

/-- A checkpointed thread state starting a refinement turn (prior itinerary
present, `is_refinement` seeded true by `plan_itinerary`). -/
def refinementTurnState : AgentState :=
  { messages := [.system "SYSTEM_MESSAGE", .human "plan it", .human "make it cheaper"]
  , constraints := some { budget_usd := some 1000 }
  , plan := []
  , violations := []
  , answer_markdown := some "Day 1: arrive."
  , itinerary := some ⟨[], 0⟩
  , decisions := []
  , done := false
  , is_refinement := true }

/-- Witness for C6 at a concrete refinement-turn state. -/
theorem C6_refinement_witness :
    refinementTurnState.is_refinement = true ∧
    ((stepGraph trivOracle (.refinement, refinementTurnState)).1 = .verifier ∧
      (stepGraph trivOracle (.refinement, refinementTurnState)).2.violations =
        refinementTurnState.violations ++ [refinementViolation] ∧
      refinementViolation.reason = "User requested a refinement. Re-evaluating plan.") :=
  ⟨rfl, C6_refinement_forces_verification trivOracle refinementTurnState rfl⟩

/-- The final checkpointed values `plan_itinerary` reads at the end of a
turn (`final_state`): `none` models the defensive `{}` taken when no
snapshot exists; otherwise the checkpoint holds every `AgentState` key, in
particular `answer_markdown` and `itinerary` (both nullable). Fields no
claim reads are omitted. -/
structure CheckpointValues where
  answer_markdown : Option String
  itinerary : Option StructuredItinerary
deriving DecidableEq

/-- The response schema (`AgentResponse` in schemas/agent.py), restricted to
the fields C10 reads; `answer_markdown : String` and
`itinerary : StructuredItinerary` are non-nullable, as in pydantic. -/
structure AgentResponse where
  answer_markdown : String
  itinerary : StructuredItinerary
deriving DecidableEq

/-- `final_state.get("answer_markdown", "")`: the default applies only when
the KEY is absent (empty snapshot); a stored None is returned as-is. -/
def getFinalAnswerMarkdown : Option CheckpointValues → Option String
  | none => some ""
  | some v => v.answer_markdown

/-- `final_state.get("itinerary") or StructuredItinerary(days=[])`: a
missing key or a stored None falls back to the empty structured itinerary
(a pydantic model instance is always truthy). -/
def getFinalItinerary : Option CheckpointValues → StructuredItinerary
  | none => { days := [] }
  | some v =>
      match v.itinerary with
      | some it => it
      | none => { days := [] }

/-- The stored itinerary value, for stating when the checkpoint "holds no
itinerary". -/
def storedItinerary : Option CheckpointValues → Option StructuredItinerary
  | none => none
  | some v => v.itinerary

/-- The `AgentResponse(...)` construction at the end of `plan_itinerary`;
pydantic rejects a None `answer_markdown` (the field is `str`), modelled as
the error branch. -/
def mkAgentResponse (fs : Option CheckpointValues) : Except String AgentResponse :=
  match getFinalAnswerMarkdown fs with
  | some md => .ok { answer_markdown := md, itinerary := getFinalItinerary fs }
  | none => .error "validation error: answer_markdown is not a string"

/-- C10: for every completed turn (the snapshot is either absent or holds
the synthesized markdown string), `plan_itinerary` returns a response whose
`itinerary` is non-null by construction; when the checkpoint holds no
itinerary the response carries a structured itinerary with an empty list of
days, and when the snapshot is absent `answer_markdown` defaults to the
empty string. -/
theorem C10_itinerary_never_null (fs : Option CheckpointValues)
    (h : fs = none ∨ ∃ v md, fs = some v ∧ v.answer_markdown = some md) :
    ∃ r, mkAgentResponse fs = .ok r ∧
      (storedItinerary fs = none → r.itinerary = { days := [] }) ∧
      (fs = none → r.answer_markdown = "") := by
  rcases h with h | ⟨v, md, hv, hmd⟩
  · subst h
    exact ⟨{ answer_markdown := "", itinerary := { days := [] } }, rfl,
      fun _ => rfl, fun _ => rfl⟩
  · subst hv
    refine ⟨{ answer_markdown := md, itinerary := getFinalItinerary (some v) }, ?_, ?_, ?_⟩
    · simp [mkAgentResponse, getFinalAnswerMarkdown, hmd]
    · intro hit
      simp only [storedItinerary] at hit
      simp [getFinalItinerary, hit]
    · intro hnone
      cases hnone

/-- Witness for C10 at the empty snapshot: both defaults apply. -/
theorem C10_itinerary_never_null_witness :
    ∃ r, mkAgentResponse none = .ok r ∧
      (storedItinerary none = none → r.itinerary = { days := [] }) ∧
      ((none : Option CheckpointValues) = none → r.answer_markdown = "") :=
  C10_itinerary_never_null none (Or.inl rfl)

end TravelAgent
